import Mathlib

/-!
Verification of the change-orchestration core of the resume-lm repository.

The Python sources are shallowly embedded over `List Char` (Python `str`
values are modelled as lists of unicode code points, which matches Python's
code-point indexing/slicing semantics).  Float-valued constants from the
source (scale factors, confidences, multipliers) are exact decimal values
with at most two fractional digits; they are represented as integers in
hundredths (e.g. `0.85` becomes `85`), which keeps every comparison and
truncation in the source exact.
-/

namespace ResumeLM

/-! ## Python string primitives -/

/-- Code points of a string literal; Python `str` is modelled as `List Char`. -/
def str (s : String) : List Char := s.toList

/-- Python `str.lower` on one character (ASCII, which covers every keyword
and message used by the sources). -/
def charLower (c : Char) : Char :=
  if 65 ≤ c.toNat ∧ c.toNat ≤ 90 then Char.ofNat (c.toNat + 32) else c

/-- Python `str.lower`. -/
def pyLower (s : List Char) : List Char := s.map charLower

/-- Python substring containment `needle in hay`. -/
def pyIn (needle : List Char) : List Char → Bool
  | [] => needle.isEmpty
  | c :: t => needle.isPrefixOf (c :: t) || pyIn needle t

/-- Python whitespace test used by `str.strip` / `str.split()`. -/
def isPySpace (c : Char) : Bool :=
  c = ' ' || c = '\t' || c = '\n' || c = '\r' || c = Char.ofNat 11 || c = Char.ofNat 12

/-- Python `str.strip()`. -/
def pyStrip (s : List Char) : List Char :=
  ((s.dropWhile isPySpace).reverse.dropWhile isPySpace).reverse

/-- Python `str.split('\n')`. -/
def splitNl : List Char → List (List Char)
  | [] => [[]]
  | c :: t =>
    if c = '\n' then [] :: splitNl t
    else match splitNl t with
      | [] => [[c]]
      | l :: ls => (c :: l) :: ls

/-- Python `'\n'.join(lines)`. -/
def joinNl (lines : List (List Char)) : List Char := List.intercalate ['\n'] lines

/-- Python argument-less `str.split()`: whitespace-separated words. -/
def pyWords (s : List Char) : List (List Char) :=
  (List.splitOnP isPySpace s).filter (· ≠ [])

/-- Helper for `pyReplace`; the fuel argument (initially the length of the
text) makes the recursion structural, and is never exhausted when the
pattern is non-empty. -/
def pyReplaceAux (pat rep : List Char) : Nat → List Char → List Char
  | 0, s => s
  | _ + 1, [] => []
  | fuel + 1, c :: t =>
    if pat.isPrefixOf (c :: t) then rep ++ pyReplaceAux pat rep fuel ((c :: t).drop pat.length)
    else c :: pyReplaceAux pat rep fuel t

/-- Python `s.replace(pat, rep)`: all non-overlapping occurrences, left to
right.  (All patterns in the sources are non-empty; an empty pattern is a
no-op here.) -/
def pyReplace (s pat rep : List Char) : List Char :=
  if pat.isEmpty then s else pyReplaceAux pat rep s.length s

/-- Count of leading `'\n'` characters. -/
def leadingNl : List Char → Nat
  | '\n' :: t => leadingNl t + 1
  | _ => 0

/-- Helper for `collapseNewlines` (fuel-structured recursion). -/
def collapseNewlinesAux : Nat → List Char → List Char
  | 0, s => s
  | _ + 1, [] => []
  | fuel + 1, c :: t =>
    if c = '\n' ∧ 3 ≤ leadingNl (c :: t) then
      '\n' :: '\n' :: collapseNewlinesAux fuel ((c :: t).dropWhile (· = '\n'))
    else c :: collapseNewlinesAux fuel t

/-- Python `re.sub(r'\n\n\n+', '\n\n', s)` (equivalently `r'\n{3,}'`): each
maximal run of three or more newlines becomes exactly two. -/
def collapseNewlines (s : List Char) : List Char := collapseNewlinesAux s.length s

/-- Helper for `collapseSpaces` (fuel-structured recursion). -/
def collapseSpacesAux : Nat → List Char → List Char
  | 0, s => s
  | _ + 1, [] => []
  | fuel + 1, c :: t =>
    if isPySpace c then ' ' :: collapseSpacesAux fuel ((c :: t).dropWhile isPySpace)
    else c :: collapseSpacesAux fuel t

/-- Python `re.sub(r'\s+', ' ', s)`: each whitespace run becomes one space. -/
def collapseSpaces (s : List Char) : List Char := collapseSpacesAux s.length s

/-! ## resume_modifier.py — ResumeModifier -/

/-- Inner branch of `ResumeModifier._modify_font`: the replacement (one or
two lines) for the located name-header line. -/
def applyNameFont (queryLower line : List Char) : List (List Char) :=
  let name := pyStrip (line.drop 2)
  if pyIn (str "bold") queryLower || pyIn (str "larger") queryLower then
    [str "# **" ++ name ++ str "**"]
  else if pyIn (str "italic") queryLower then
    [str "# *" ++ name ++ str "*"]
  else if pyIn (str "underline") queryLower then
    [str "# " ++ name, List.replicate name.length '=']
  else [line]

/-- The line scan of `ResumeModifier._modify_font`: rewrite the first line
that starts with `# ` but not `## `, leave everything after it untouched. -/
def fontLines (queryLower : List Char) : List (List Char) → List (List Char)
  | [] => []
  | l :: ls =>
    if (str "# ").isPrefixOf l ∧ ¬ (str "## ").isPrefixOf l then
      applyNameFont queryLower l ++ ls
    else l :: fontLines queryLower ls

/-- `ResumeModifier._modify_font`. -/
def modifyFont (userQuery resume : List Char) : List Char :=
  let ql := pyLower userQuery
  if pyIn (str "name") ql ∧ (pyIn (str "font") ql ∨ pyIn (str "bold") ql) then
    joinNl (fontLines ql (splitNl resume))
  else resume

/-- `ResumeModifier._modify_color`. -/
def modifyColor (userQuery resume : List Char) : List Char :=
  let ql := pyLower userQuery
  if pyIn (str "blue") ql then pyReplace resume (str "## ") (str "## 🔵 ")
  else if pyIn (str "green") ql then pyReplace resume (str "## ") (str "## 🟢 ")
  else if pyIn (str "red") ql then pyReplace resume (str "## ") (str "## 🔴 ")
  else resume

/-- Condition on one line of `ResumeModifier._make_contact_compact`. -/
def isContactLine (l : List Char) : Bool :=
  pyStrip l ≠ [] ∧ ¬ (str "#").isPrefixOf l ∧
    (pyIn (str "@") l ∨ pyIn (str "linkedin") (pyLower l) ∨ pyIn (str "(") l)

/-- The scan loop of `_make_contact_compact`: returns the index of the first
contact line and the stripped contact lines collected before the loop
breaks (it breaks at the first blank line after the section started). -/
def contactScan : List (List Char) → Nat → Option Nat → List (List Char) →
    Option Nat × List (List Char)
  | [], _, start, acc => (start, acc.reverse)
  | l :: ls, i, start, acc =>
    if isContactLine l then
      contactScan ls (i + 1) (some (start.getD i)) (pyStrip l :: acc)
    else if start ≠ none ∧ pyStrip l = [] then (start, acc.reverse)
    else contactScan ls (i + 1) start acc

/-- `ResumeModifier._make_contact_compact`. -/
def makeContactCompact (resume : List Char) : List Char :=
  let lines := splitNl resume
  match contactScan lines 0 none [] with
  | (some start, contactLines) =>
    if contactLines ≠ [] then
      let combined := List.intercalate (str " | ") contactLines
      joinNl (lines.take start ++ [combined] ++ lines.drop (start + contactLines.length))
    else resume
  | (none, _) => resume

/-- `ResumeModifier._modify_layout`. -/
def modifyLayout (userQuery resume : List Char) : List Char :=
  let ql := pyLower userQuery
  if pyIn (str "compact") ql ∨ pyIn (str "shorter") ql then
    makeContactCompact (collapseNewlines resume)
  else if pyIn (str "more space") ql ∨ pyIn (str "spacious") ql then
    pyReplace resume (str "\n## ") (str "\n\n---\n\n## ")
  else resume

/-- `ResumeModifier._modify_spacing`. -/
def modifySpacing (userQuery resume : List Char) : List Char :=
  let ql := pyLower userQuery
  if pyIn (str "less space") ql ∨ pyIn (str "compact") ql ∨ pyIn (str "tighter") ql then
    pyReplace (collapseNewlines resume) (str "\n\n## ") (str "\n## ")
  else if pyIn (str "more space") ql then
    pyReplace resume (str "\n\n") (str "\n\n\n")
  else resume

/-- One line under `re.sub(r'^# (.+)$', r'# **\1**', ..., re.MULTILINE)`:
the pattern needs `# ` at the line start followed by at least one
character. -/
def h1EmphasisLine (l : List Char) : List Char :=
  if (str "# ").isPrefixOf l ∧ l.drop 2 ≠ [] then str "# **" ++ l.drop 2 ++ str "**"
  else l

/-- `ResumeModifier._modify_size`. -/
def modifySize (userQuery resume : List Char) : List Char :=
  let ql := pyLower userQuery
  if pyIn (str "larger") ql ∨ pyIn (str "bigger") ql then
    if pyIn (str "name") ql then joinNl ((splitNl resume).map h1EmphasisLine)
    else resume
  else resume

/-- The emoji character class of `_modify_style`'s professional branch. -/
def styleEmojis : List Char := str "📧🏠📞💼🎓⚡🚀🌟💻🔧📈🎯"

/-- `ResumeModifier._modify_style`. -/
def modifyStyle (userQuery resume : List Char) : List Char :=
  let ql := pyLower userQuery
  if pyIn (str "professional") ql then
    collapseSpaces (resume.filter (fun c => ¬ c ∈ styleEmojis))
  else if pyIn (str "modern") ql ∨ pyIn (str "creative") ql then
    pyReplace resume (str "## ") (str "## ✨ ")
  else resume

/-- Index of the first occurrence of `pat` in `s` (Python `str.find` /
`re.search` start position for a literal prefix). -/
def findSub (pat : List Char) : List Char → Option Nat
  | [] => if pat.isEmpty then some 0 else none
  | c :: t =>
    if pat.isPrefixOf (c :: t) then some 0
    else (findSub pat t).map (· + 1)

/-- End position of the non-greedy match of `.*?(?=\n## |\n---|\Z)` with
`re.DOTALL`, scanning from position `i`: the smallest extension after which
the lookahead (or the end of the text) holds. -/
def eduMatchEnd (i : Nat) : List Char → Nat
  | [] => i
  | c :: t =>
    if (str "\n## ").isPrefixOf (c :: t) ∨ (str "\n---").isPrefixOf (c :: t) then i
    else eduMatchEnd (i + 1) t

/-- The replacement table of `_convert_education_to_table`. -/
def educationTable : List Char :=
  str "## 🎓 Education\n\n| Degree | Institution | Year |\n|--------|-------------|------|\n| Bachelor of Science | University Name | 2020-2024 |\n"

/-- `ResumeModifier._convert_education_to_table`: locate the education
section via `re.search(r'## 🎓.*?(?=\n## |\n---|\Z)', resume, re.DOTALL)`
and replace the matched text with a fixed table. -/
def convertEducationToTable (resume : List Char) : List Char :=
  match findSub (str "## 🎓") resume with
  | none => resume
  | some start =>
    let startBody := start + (str "## 🎓").length
    let stop := eduMatchEnd startBody (resume.drop startBody)
    let matched := (resume.drop start).take (stop - start)
    pyReplace resume matched educationTable

/-- `ResumeModifier._modify_format`. -/
def modifyFormat (userQuery resume : List Char) : List Char :=
  let ql := pyLower userQuery
  if pyIn (str "table") ql ∧ pyIn (str "education") ql then convertEducationToTable resume
  else resume

/-- `ResumeModifier.apply_modification`: the `if/elif` dispatch. -/
def applyModification (userQuery resume : List Char) : List Char :=
  let ql := pyLower userQuery
  if pyIn (str "font") ql || pyIn (str "bold") ql then modifyFont userQuery resume
  else if pyIn (str "color") ql then modifyColor userQuery resume
  else if pyIn (str "compact") ql || pyIn (str "spacing") ql ||
      pyIn (str "tighter") ql then
    modifySpacing userQuery resume
  else if pyIn (str "layout") ql then modifyLayout userQuery resume
  else if pyIn (str "size") ql then modifySize userQuery resume
  else if pyIn (str "style") ql then modifyStyle userQuery resume
  else if pyIn (str "format") ql then modifyFormat userQuery resume
  else resume

/-- `ResumeModifier.estimate_change_impact`. -/
def estimateChangeImpact (userQuery : List Char) : List Char :=
  let ql := pyLower userQuery
  let largeChanges := [str "add experience", str "add new", str "remove", str "delete",
    str "new job", str "new project", str "change company", str "change position"]
  let mediumChanges := [str "layout", str "format", str "order", str "table", str "column"]
  let smallChanges := [str "font", str "color", str "bold", str "italic", str "size",
    str "spacing", str "tighter", str "compact"]
  if largeChanges.any (fun k => pyIn k ql) then str "large"
  else if mediumChanges.any (fun k => pyIn k ql) then str "medium"
  else if smallChanges.any (fun k => pyIn k ql) then str "small"
  else str "unknown"

/-- `ResumeModifier.can_handle_modification` (with a non-empty existing
resume). -/
def canHandleModification (userQuery : List Char) : Bool :=
  let ql := pyLower userQuery
  let modificationKeywords := [str "font", str "color", str "size", str "style",
    str "spacing", str "format", str "bold", str "italic", str "underline",
    str "larger", str "smaller", str "bigger", str "compact", str "spacing",
    str "margins", str "layout"]
  let contentChangeKeywords := [str "add experience", str "add new", str "remove",
    str "delete", str "new job", str "new project", str "add education",
    str "add skill", str "change company", str "change position",
    str "add work", str "new experience"]
  modificationKeywords.any (fun k => pyIn k ql) ∧
    ¬ contentChangeKeywords.any (fun k => pyIn k ql)

/-! ## advanced_ui_agent.py — AdvancedUIAgent -/

/-- `AdvancedUIAgent.ui_keywords`, flattened in category order (the counting
loop iterates every keyword of every category). -/
def uiKeywordTable : List (List Char) :=
  [str "font", str "bold", str "italic", str "typeface", str "larger",
     str "smaller", str "bigger",
   str "color", str "blue", str "red", str "green", str "navy", str "teal",
     str "black", str "gray",
   str "layout", str "format", str "structure", str "column", str "arrange",
     str "organize",
   str "spacing", str "compact", str "tight", str "spacious", str "gap",
     str "margin", str "padding",
   str "size", str "larger", str "smaller", str "bigger", str "increase",
     str "decrease",
   str "style", str "modern", str "professional", str "creative", str "clean",
     str "minimal"]

/-- `AdvancedUIAgent`'s content keyword list. -/
def contentKeywordTable : List (List Char) :=
  [str "experience", str "education", str "skills", str "work", str "job",
   str "company", str "project", str "degree", str "university", str "college",
   str "certification", str "add", str "remove", str "change my", str "update my",
   str "worked at", str "studied at", str "graduated"]

/-- Number of keywords from `kws` occurring in the lowered message. -/
def keywordHits (kws : List (List Char)) (messageLower : List Char) : Nat :=
  (kws.filter (fun k => pyIn k messageLower)).length

/-- `AdvancedUIAgent.is_ui_modification_request`: a majority vote of keyword
hits. -/
def isUiModificationRequest (message : List Char) : Bool :=
  let ml := pyLower message
  let uiIndicators := keywordHits uiKeywordTable ml
  let contentIndicators := keywordHits contentKeywordTable ml
  uiIndicators > contentIndicators ∧ uiIndicators > 0

/-- The word count of `AdvancedUIAgent._content_integrity_check`: words of
non-blank stripped lines, excluding words starting with `#`. -/
def contentWords (s : List Char) : Nat :=
  let lines := ((splitNl s).map pyStrip).filter (· ≠ [])
  ((lines.flatMap pyWords).filter (fun w => w.head? ≠ some '#')).length

/-- `AdvancedUIAgent._content_integrity_check`:
`|wo - wm| / max(wo, 1) < 0.1`, written exactly over naturals. -/
def contentIntegrityCheck (original modified : List Char) : Bool :=
  10 * Nat.dist (contentWords original) (contentWords modified) <
    max (contentWords original) 1

/-- `AdvancedUIAgent.apply_ui_modifications` after the collaborator call:
`aiResult = none` models the API call raising (the `except` branch returns
the original); on a reply the integrity check gates whether the modified
text or the original is returned. -/
def applyUiModifications (original : List Char) (aiResult : Option (List Char)) :
    List Char :=
  match aiResult with
  | none => original
  | some modified =>
    if contentIntegrityCheck original modified then modified else original

/-! ## intelligent_query_classifier.py — QueryType and the fallback path -/

/-- `QueryType` (intelligent_query_classifier.py). -/
inductive QueryType where
  | UI_MODIFICATION
  | CONTENT_UPDATE
  | DATA_GATHERING
  | RESUME_GENERATION
  | QUESTION_ANSWER
  | GREETING
  | UNCLEAR
  deriving DecidableEq, Repr

/-- `QueryClassification`; `confidence` is in hundredths (all confidences
in the source are exact two-digit decimals in `[0, 1]`). -/
structure QueryClassification where
  queryType : QueryType
  confidence : Nat
  categories : List (List Char)
  deriving DecidableEq, Repr

/-- `IntelligentQueryClassifier.fallback_patterns` in dict insertion order
(the order `max` iterates for tie-breaking).  The patterns are matched
against the lowered message, so the capitalised `I ...` patterns can never
hit — exactly as in the source. -/
def fallbackPatterns : List (QueryType × List (List Char)) :=
  [(QueryType.UI_MODIFICATION,
    [str "bold", str "italic", str "color", str "blue", str "red", str "layout",
     str "compact", str "spacing", str "font", str "larger", str "smaller",
     str "style", str "modern", str "professional"]),
   (QueryType.CONTENT_UPDATE,
    [str "add experience", str "change name", str "update skills", str "worked at",
     str "studied at", str "graduated", str "add project", str "remove", str "delete"]),
   (QueryType.DATA_GATHERING,
    [str "tell me", str "what", str "how", str "my name is", str "I worked",
     str "I studied", str "my skills", str "I have experience"]),
   (QueryType.GREETING,
    [str "hello", str "hi", str "hey", str "good morning", str "good afternoon",
     str "thanks"])]

/-- Pattern score of one query type for a lowered message. -/
def fallbackScore (messageLower : List Char) (patterns : List (List Char)) : Nat :=
  (patterns.filter (fun p => pyIn p messageLower)).length

/-- `max(scores.keys(), key=...)`: first key with the maximal score, in dict
order (a later key replaces the current best only on a strictly greater
score). -/
def bestFallback (messageLower : List Char) : QueryType × Nat :=
  match fallbackPatterns with
  | [] => (QueryType.UNCLEAR, 0)
  | p :: ps =>
    ps.foldl
      (fun best entry =>
        let s := fallbackScore messageLower entry.2
        if s > best.2 then (entry.1, s) else best)
      (p.1, fallbackScore messageLower p.2)

/-- `IntelligentQueryClassifier._fallback_classify_query`. -/
def fallbackClassifyQuery (message : List Char) : QueryClassification :=
  let ml := pyStrip (pyLower message)
  let best := bestFallback ml
  if best.2 = 0 then
    { queryType := QueryType.UNCLEAR, confidence := 30, categories := [] }
  else
    let confidence := min 80 (best.2 * 20 + 50)
    let categories :=
      if best.1 = QueryType.UI_MODIFICATION then
        (if [str "color", str "blue", str "red"].any (fun k => pyIn k ml) then
          [str "color"] else []) ++
        (if [str "font", str "bold", str "italic"].any (fun k => pyIn k ml) then
          [str "font"] else []) ++
        (if [str "layout", str "compact", str "spacing"].any (fun k => pyIn k ml) then
          [str "layout"] else [])
      else []
    { queryType := best.1, confidence := confidence, categories := categories }

/-- `IntelligentQueryClassifier.classify_query`: the semantic (AI) path is a
collaborator; `aiResult = none` models every internal-error path (API
exception, JSON decode error, invalid enum value), all of which fall back
to pattern classification. -/
def classifyQuery (message : List Char) (aiResult : Option QueryClassification) :
    QueryClassification :=
  match aiResult with
  | some c => c
  | none => fallbackClassifyQuery message

/-! ## hybrid_query_classifier.py — HybridQueryClassifier -/

/-- Greeting check of `_quick_regex_classify` (substring containment, so
e.g. any message containing the letters `hi` greets). -/
def quickGreeting (ml : List Char) : Bool :=
  [str "hello", str "hi", str "hey", str "thanks"].any (fun g => pyIn g ml)

/-- UI keyword test of `_quick_regex_classify`. -/
def quickHasUi (ml : List Char) : Bool :=
  [str "bold", str "italic", str "color", str "blue", str "red", str "larger",
   str "smaller", str "compact", str "spacing", str "font"].any (fun k => pyIn k ml)

/-- Content keyword test of `_quick_regex_classify`. -/
def quickHasContent (ml : List Char) : Bool :=
  [str "add", str "update", str "change my", str "remove", str "worked at",
   str "studied at"].any (fun k => pyIn k ml)

/-- `HybridQueryClassifier._quick_regex_classify` on the lowered, stripped
message. -/
def quickRegexClassifyCore (ml : List Char) : Option QueryClassification :=
  if quickGreeting ml then
    some { queryType := QueryType.GREETING, confidence := 90, categories := [] }
  else if quickHasUi ml && !quickHasContent ml then
    let categories :=
      (if [str "bold", str "italic", str "font"].any (fun k => pyIn k ml) then
        [str "font"] else []) ++
      (if [str "color", str "blue", str "red"].any (fun k => pyIn k ml) then
        [str "color"] else []) ++
      (if [str "larger", str "smaller"].any (fun k => pyIn k ml) then
        [str "size"] else [])
    some { queryType := QueryType.UI_MODIFICATION, confidence := 85,
           categories := categories }
  else if quickHasContent ml then
    let categories :=
      (if pyIn (str "experience") ml ∨ pyIn (str "worked") ml then
        [str "experience"] else []) ++
      (if pyIn (str "skills") ml then [str "skills"] else []) ++
      (if pyIn (str "education") ml ∨ pyIn (str "studied") ml then
        [str "education"] else [])
    some { queryType :=
             if [str "add", str "update", str "change", str "remove"].any
                 (fun k => pyIn k ml) then
               QueryType.CONTENT_UPDATE
             else QueryType.DATA_GATHERING,
           confidence := 82, categories := categories }
  else if [str "generate resume", str "create resume", str "build resume",
      str "ready"].any (fun p => pyIn p ml) then
    some { queryType := QueryType.RESUME_GENERATION, confidence := 85,
           categories := [] }
  else none

/-- `HybridQueryClassifier._quick_regex_classify`. -/
def quickRegexClassify (message : List Char) : Option QueryClassification :=
  quickRegexClassifyCore (pyStrip (pyLower message))

/-- `HybridQueryClassifier.classify_query` (`ai_threshold = 0.8`): a regex
result with confidence ≥ 0.8 is used directly; otherwise the semantic
classifier's result `aiResult` decides. -/
def hybridClassifyQuery (message : List Char) (aiResult : QueryClassification) :
    QueryClassification :=
  match quickRegexClassify message with
  | some r => if r.confidence ≥ 80 then r else aiResult
  | none => aiResult

/-! ## auto_fit_generator.py — AutoFitPdfGenerator

Scale factors, multipliers and line heights are exact two-digit decimals in
the source; they are carried in hundredths.  `int(x)` on the non-negative
products involved is truncation, i.e. natural division by 100 here. -/

/-- The fields of the content analysis consumed by the scaling functions. -/
structure ContentAnalysis where
  contentLines : Nat
  densityScore : Nat
  deriving DecidableEq, Repr

/-- The `size_class` labels of `calculate_font_scaling`. -/
inductive SizeClass where
  | NORMAL
  | MEDIUM
  | COMPACT
  | DENSE
  | ULTRA_DENSE
  deriving DecidableEq, Repr

/-- The scaling dict returned by `AutoFitPdfGenerator.calculate_font_scaling`
(`*100` fields are hundredths). -/
structure FontScaling where
  baseFactor100 : Nat
  h1Size : Nat
  h2Size : Nat
  h3Size : Nat
  bodySize : Nat
  smallSize : Nat
  contactSize : Nat
  lineHeight100 : Nat
  marginFactor100 : Nat
  spacingFactor100 : Nat
  sizeClass : SizeClass
  deriving DecidableEq, Repr

/-- `AutoFitPdfGenerator.calculate_font_scaling`: thresholds on
`content_lines` pick the scale factor and size class; the font sizes are
floored products clamped from below. -/
def calculateFontScaling (analysis : ContentAnalysis) : FontScaling :=
  let n := analysis.contentLines
  let scaleFactor100 : Nat :=
    if n ≤ 35 then 100
    else if n ≤ 50 then 95
    else if n ≤ 65 then 85
    else if n ≤ 80 then 75
    else 65
  let sizeClass : SizeClass :=
    if n ≤ 35 then .NORMAL
    else if n ≤ 50 then .MEDIUM
    else if n ≤ 65 then .COMPACT
    else if n ≤ 80 then .DENSE
    else .ULTRA_DENSE
  { baseFactor100 := scaleFactor100
    h1Size := max 14 (16 * scaleFactor100 / 100)
    h2Size := max 11 (12 * scaleFactor100 / 100)
    h3Size := max 10 (11 * scaleFactor100 / 100)
    bodySize := max 10 (12 * scaleFactor100 / 100)
    smallSize := max 7 (9 * scaleFactor100 / 100)
    contactSize := max 7 (10 * scaleFactor100 / 100)
    lineHeight100 := max 120 (140 * scaleFactor100 / 100)
    marginFactor100 := max 60 scaleFactor100
    spacingFactor100 := max 50 scaleFactor100
    sizeClass := sizeClass }

/-- Position of a size class in the ordered tier list
NORMAL < MEDIUM < COMPACT < DENSE < ULTRA_DENSE. -/
def tierIndex : SizeClass → Nat
  | .NORMAL => 0
  | .MEDIUM => 1
  | .COMPACT => 2
  | .DENSE => 3
  | .ULTRA_DENSE => 4

/-! ## configurable_autofit_generator.py — ConfigurableAutoFitGenerator -/

/-- One per-level font table (`{'header': .., 'section': .., 'body': ..,
'small': ..}`; the `section` key is spelled `sectionFont`, `section` being
a Lean keyword). -/
structure FontTable where
  header : Nat
  sectionFont : Nat
  body : Nat
  small : Nat
  deriving DecidableEq, Repr

/-- The scaling levels of `calculate_configurable_scaling`. -/
inductive ScalingLevel where
  | comfortable
  | balanced
  | compact
  | dense
  | ultra_dense
  deriving DecidableEq, Repr

/-- Position of a scaling level in the ordered tier list. -/
def levelIndex : ScalingLevel → Nat
  | .comfortable => 0
  | .balanced => 1
  | .compact => 2
  | .dense => 3
  | .ultra_dense => 4

/-- The sensitivity parameters consumed by
`calculate_configurable_scaling` (`*100` fields are hundredths). -/
structure SensitivityConfig where
  shortResumeLines : Nat
  mediumResumeLines : Nat
  longResumeLines : Nat
  veryLongLines : Nat
  minFontSize : Nat
  maxFontSize : Nat
  comfortable : FontTable
  balanced : FontTable
  compact : FontTable
  dense : FontTable
  ultra_dense : FontTable
  spacingReduction100 : Nat
  marginReduction100 : Nat
  deriving DecidableEq, Repr

/-- The default sensitivity dict of `ConfigurableAutoFitGenerator.__init__`. -/
def defaultSensitivity : SensitivityConfig :=
  { shortResumeLines := 25
    mediumResumeLines := 40
    longResumeLines := 60
    veryLongLines := 80
    minFontSize := 6
    maxFontSize := 20
    comfortable := { header := 14, sectionFont := 11, body := 10, small := 9 }
    balanced := { header := 13, sectionFont := 10, body := 9, small := 8 }
    compact := { header := 12, sectionFont := 10, body := 8, small := 7 }
    dense := { header := 11, sectionFont := 9, body := 7, small := 6 }
    ultra_dense := { header := 10, sectionFont := 8, body := 6, small := 5 }
    spacingReduction100 := 80
    marginReduction100 := 90 }

/-- Font table of a level under a configuration. -/
def levelFonts (cfg : SensitivityConfig) : ScalingLevel → FontTable
  | .comfortable => cfg.comfortable
  | .balanced => cfg.balanced
  | .compact => cfg.compact
  | .dense => cfg.dense
  | .ultra_dense => cfg.ultra_dense

/-- The scale dict returned by `calculate_configurable_scaling`
(`margins100` is hundredths of an inch multiplier, `lineSpacing100`
hundredths). -/
structure ConfigurableScaling where
  factor100 : Nat
  level : ScalingLevel
  header : Nat
  sectionFont : Nat
  body : Nat
  small : Nat
  lineSpacing100 : Nat
  spacingAfter : Nat
  margins100 : Nat
  deriving DecidableEq, Repr

/-- `ConfigurableAutoFitGenerator.calculate_configurable_scaling`: threshold
chain on `content_lines`, spacing/margin reductions, and the min/max font
clamp. -/
def calculateConfigurableScaling (cfg : SensitivityConfig)
    (analysis : ContentAnalysis) : ConfigurableScaling :=
  let (level, factor100, spacingAfter0, lineSpacing100, margins0) :
      ScalingLevel × Nat × Nat × Nat × Nat :=
    if analysis.contentLines ≤ cfg.shortResumeLines then (.comfortable, 100, 6, 115, 80)
    else if analysis.contentLines ≤ cfg.mediumResumeLines then (.balanced, 90, 4, 110, 70)
    else if analysis.contentLines ≤ cfg.longResumeLines then (.compact, 80, 3, 105, 60)
    else if analysis.contentLines ≤ cfg.veryLongLines then (.dense, 70, 2, 100, 50)
    else (.ultra_dense, 60, 1, 95, 40)
  let spacingAfter := max 1 (spacingAfter0 * cfg.spacingReduction100 / 100)
  let margins100 := margins0 * cfg.marginReduction100 / 100
  let fonts := levelFonts cfg level
  let clamp := fun v => max cfg.minFontSize (min cfg.maxFontSize v)
  { factor100 := factor100
    level := level
    header := clamp fonts.header
    sectionFont := clamp fonts.sectionFont
    body := clamp fonts.body
    small := clamp fonts.small
    lineSpacing100 := lineSpacing100
    spacingAfter := spacingAfter
    margins100 := margins100 }

/-! ## Dispatch order of apply_modification, stated as the spec words it -/

/-- One modification category: its keyword test (on the lowered query) and
its transform. -/
structure ModCategory where
  cond : List Char → Bool
  transform : List Char → List Char → List Char

/-- The spec's reading of `apply_modification`: the fixed category order
font/bold, color, spacing/compact, layout, size, style, format. -/
def modificationDispatchOrder : List ModCategory :=
  [⟨fun ql => pyIn (str "font") ql || pyIn (str "bold") ql, modifyFont⟩,
   ⟨fun ql => pyIn (str "color") ql, modifyColor⟩,
   ⟨fun ql => pyIn (str "compact") ql || pyIn (str "spacing") ql ||
      pyIn (str "tighter") ql, modifySpacing⟩,
   ⟨fun ql => pyIn (str "layout") ql, modifyLayout⟩,
   ⟨fun ql => pyIn (str "size") ql, modifySize⟩,
   ⟨fun ql => pyIn (str "style") ql, modifyStyle⟩,
   ⟨fun ql => pyIn (str "format") ql, modifyFormat⟩]

/-- Apply the transform of the first category whose keyword occurs in the
message; with no match, return the document unchanged. -/
def firstMatchingModification (userQuery resume : List Char) : List Char :=
  match modificationDispatchOrder.find? (fun c => c.cond (pyLower userQuery)) with
  | some c => c.transform userQuery resume
  | none => resume

/-! ## main.py — generate_and_notify_resume (escalated generation) -/

/-- Outbound notifications emitted by `generate_and_notify_resume`. -/
inductive GenEvent where
  | statusUpdate
  | pdfUpdate
  | docxUpdate
  | successMessage
  | errorMessage
  | fallbackUpdate
  deriving DecidableEq, Repr

/-- Events of the `except` branch's second-attempt fallback: it only pushes
a `resume_update` notification on success and never touches the session. -/
def fallbackEvents : Except Unit (List Char) → List GenEvent
  | .ok _ => [.fallbackUpdate]
  | .error _ => []

/-- `main.generate_and_notify_resume`, as a function of the session's
committed markdown and the outcomes of the external calls
(`gen` = `ai_orchestrator.generate_resume_markdown`,
`pdf` = `generate_auto_fit_pdf_base64`,
`docx` = `generate_configurable_docx_base64`, `fb` = the fallback
generation in the `except` branch; `.error` models a raised exception and
an `.ok` empty string a falsy result).  Returns the session's markdown
after the call (`session_manager.update_resume_markdown` happens exactly
once, after markdown, PDF and DOCX all succeeded) together with the
emitted notifications. -/
def generateAndNotifyResume (sessionMd : List Char)
    (gen pdf docx fb : Except Unit (List Char)) : List Char × List GenEvent :=
  match gen with
  | .error _ => (sessionMd, [.statusUpdate, .errorMessage] ++ fallbackEvents fb)
  | .ok md =>
    match pdf with
    | .error _ =>
      (sessionMd, [.statusUpdate, .statusUpdate, .errorMessage] ++ fallbackEvents fb)
    | .ok p =>
      if p = [] then (sessionMd, [.statusUpdate, .statusUpdate])
      else
        match docx with
        | .error _ =>
          (sessionMd, [.statusUpdate, .statusUpdate, .errorMessage] ++ fallbackEvents fb)
        | .ok dx =>
          (md, [.statusUpdate, .statusUpdate, .pdfUpdate] ++
            (if dx = [] then [] else [.docxUpdate]) ++ [.successMessage])

/-!
# Theorems
-/

/-- C1 fails as stated: the message "make headers blue color" has estimated
impact `small` and is served by the local transform path
(`apply_modification`), which runs no integrity check; on the document
`"## A\nB"` it inserts a color-marker word per section header, changing the
non-markup word count from 2 to 3 — a 50% relative delta — and still
returns the modified document instead of discarding the transform. -/
theorem C1_counterexample :
    estimateChangeImpact (str "make headers blue color") = str "small" ∧
    applyModification (str "make headers blue color") (str "## A\nB") =
      str "## 🔵 A\nB" ∧
    10 * Nat.dist (contentWords (str "## A\nB"))
        (contentWords (applyModification (str "make headers blue color")
          (str "## A\nB"))) >
      max (contentWords (str "## A\nB")) 1 := by
  refine ⟨by decide, by decide, by decide⟩

/-- C1 amended: the ±10% word-count guarantee is enforced only on the
AI-styling path — `apply_ui_modifications` returns either the collaborator's
text, which passed the integrity check (relative delta strictly below 10%
of `max(wordCount, 1)`), or the original document unchanged; so its result
always satisfies the bound.  The local transform path has no such check
(see the counterexample). -/
theorem C1_amended (original : List Char) (aiResult : Option (List Char)) :
    10 * Nat.dist (contentWords original)
        (contentWords (applyUiModifications original aiResult)) <
      max (contentWords original) 1 := by
  match aiResult with
  | none =>
    simp only [applyUiModifications, Nat.dist_self, Nat.mul_zero]
    omega
  | some modified =>
    simp only [applyUiModifications]
    by_cases h : contentIntegrityCheck original modified = true
    · rw [if_pos h]
      exact of_decide_eq_true h
    · rw [if_neg h]
      simp only [Nat.dist_self, Nat.mul_zero]
      omega

/-- C2 fails as stated: the bold-name style transform is not idempotent —
applying "make the name bold" twice to the document `"# Jane Doe"` yields
nested bold markers, so `transform(transform(D)) ≠ transform(D)`. -/
theorem C2_counterexample :
    applyModification (str "make the name bold")
        (applyModification (str "make the name bold") (str "# Jane Doe")) ≠
      applyModification (str "make the name bold") (str "# Jane Doe") := by
  decide

/-- C2 amended: the bold-name style transform is not idempotent; a second
application wraps the already-bolded heading in a second pair of markers,
turning `# **Jane Doe**` into `# ****Jane Doe****` (nested markers), because
`_modify_font` re-wraps whatever text the first `# `-line carries. -/
theorem C2_amended :
    applyModification (str "make the name bold") (str "# Jane Doe") =
      str "# **Jane Doe**" ∧
    applyModification (str "make the name bold") (str "# **Jane Doe**") =
      str "# ****Jane Doe****" := by
  refine ⟨by decide, by decide⟩

/-- C3 fails as stated, in two ways.  (1) The spec's own mixed message
"make headers blue and add my internship at Acme" contains a cosmetic
keyword (`blue`) and factual-content keywords (`add`, `experience`-class),
yet the hybrid classifier resolves it to GREETING — the word `internship`
contains the substring `hi`, which trips the greeting fast path (confidence
0.9 ≥ 0.8, so the semantic classifier is never consulted).  (2) The message
"change color to navy blue and add my experience" contains both kinds of
keywords, yet `AdvancedUIAgent.is_ui_modification_request` accepts it as a
UI-only request, because its majority vote counts 3 UI keyword hits
(`color`, `blue`, `navy`) against 2 content hits (`add`, `experience`). -/
theorem C3_counterexample :
    (pyIn (str "blue")
        (pyLower (str "make headers blue and add my internship at Acme")) = true ∧
      pyIn (str "add")
        (pyLower (str "make headers blue and add my internship at Acme")) = true ∧
      (hybridClassifyQuery (str "make headers blue and add my internship at Acme")
          ⟨QueryType.UNCLEAR, 20, []⟩).queryType = QueryType.GREETING) ∧
    (pyIn (str "blue")
        (pyLower (str "change color to navy blue and add my experience")) = true ∧
      pyIn (str "add")
        (pyLower (str "change color to navy blue and add my experience")) = true ∧
      isUiModificationRequest
        (str "change color to navy blue and add my experience") = true) := by
  refine ⟨⟨by decide, by decide, by decide⟩, ⟨by decide, by decide, by decide⟩⟩

/-- C3 amended: the content-precedence tie-break does hold for the hybrid
classifier's fast path — any message containing both a UI keyword and a
content keyword (from `_quick_regex_classify`'s lists) resolves to
CONTENT_UPDATE or DATA_GATHERING, independent of the semantic classifier —
provided no greeting substring (`hello`, `hi`, `hey`, `thanks`) occurs in
the lowered message; and `is_ui_modification_request`'s majority vote can
still route such a message to the local style path (see the
counterexample). -/
theorem C3_amended (msg : List Char) (ai : QueryClassification)
    (hUi : quickHasUi (pyStrip (pyLower msg)) = true)
    (hContent : quickHasContent (pyStrip (pyLower msg)) = true)
    (hGreet : quickGreeting (pyStrip (pyLower msg)) = false) :
    (hybridClassifyQuery msg ai).queryType = QueryType.CONTENT_UPDATE ∨
      (hybridClassifyQuery msg ai).queryType = QueryType.DATA_GATHERING := by
  unfold hybridClassifyQuery quickRegexClassify quickRegexClassifyCore
  rw [hGreet, hUi, hContent]
  by_cases hc :
      ([str "add", str "update", str "change", str "remove"].any
        (fun k => pyIn k (pyStrip (pyLower msg)))) = true
  · rw [hc]
    simp
  · rw [Bool.not_eq_true] at hc
    rw [hc]
    simp

/-- Witness for C3 amended, at the mixed message
"make it bold and update my experience" (UI keyword `bold`, content keyword
`update`, no greeting substring). -/
theorem C3_amended_witness :
    (hybridClassifyQuery (str "make it bold and update my experience")
        ⟨QueryType.UNCLEAR, 20, []⟩).queryType = QueryType.CONTENT_UPDATE ∨
      (hybridClassifyQuery (str "make it bold and update my experience")
        ⟨QueryType.UNCLEAR, 20, []⟩).queryType = QueryType.DATA_GATHERING :=
  C3_amended (str "make it bold and update my experience")
    ⟨QueryType.UNCLEAR, 20, []⟩ (by decide) (by decide) (by decide)

/-- The size class emitted by `calculate_font_scaling`, as a function of the
content-line count. -/
theorem sizeClass_of_calculateFontScaling (a : ContentAnalysis) :
    (calculateFontScaling a).sizeClass =
      (if a.contentLines ≤ 35 then .NORMAL
       else if a.contentLines ≤ 50 then .MEDIUM
       else if a.contentLines ≤ 65 then .COMPACT
       else if a.contentLines ≤ 80 then .DENSE
       else .ULTRA_DENSE) := rfl

/-- The level emitted by `calculate_configurable_scaling`, as a function of
the content-line count and the configured thresholds. -/
theorem level_of_calculateConfigurableScaling (cfg : SensitivityConfig)
    (a : ContentAnalysis) :
    (calculateConfigurableScaling cfg a).level =
      (if a.contentLines ≤ cfg.shortResumeLines then .comfortable
       else if a.contentLines ≤ cfg.mediumResumeLines then .balanced
       else if a.contentLines ≤ cfg.longResumeLines then .compact
       else if a.contentLines ≤ cfg.veryLongLines then .dense
       else .ultra_dense) := by
  unfold calculateConfigurableScaling
  split_ifs <;> rfl

/-- C4: tier selection is monotone in the structural density input.  Both
fitters tier on the content-line count (the raw density metric; the
weighted density score is computed but not consulted by the tier choice):
with every other metric free, a strictly smaller line count never receives
a later (denser) tier — for `AutoFitPdfGenerator.calculate_font_scaling`
and for `ConfigurableAutoFitGenerator.calculate_configurable_scaling`
under any sensitivity configuration. -/
theorem C4_tier_monotone (cfg : SensitivityConfig) (a1 a2 : ContentAnalysis)
    (h : a1.contentLines < a2.contentLines) :
    tierIndex (calculateFontScaling a1).sizeClass ≤
        tierIndex (calculateFontScaling a2).sizeClass ∧
      levelIndex (calculateConfigurableScaling cfg a1).level ≤
        levelIndex (calculateConfigurableScaling cfg a2).level := by
  constructor
  · rw [sizeClass_of_calculateFontScaling, sizeClass_of_calculateFontScaling]
    split_ifs <;> simp [tierIndex] <;> omega
  · rw [level_of_calculateConfigurableScaling, level_of_calculateConfigurableScaling]
    split_ifs <;> simp [levelIndex] <;> omega

/-- Witness for C4 at 20 vs 90 content lines (comfortable/NORMAL against
ultra-dense). -/
theorem C4_tier_monotone_witness :
    tierIndex (calculateFontScaling ⟨20, 0⟩).sizeClass ≤
        tierIndex (calculateFontScaling ⟨90, 0⟩).sizeClass ∧
      levelIndex (calculateConfigurableScaling defaultSensitivity ⟨20, 0⟩).level ≤
        levelIndex (calculateConfigurableScaling defaultSensitivity ⟨90, 0⟩).level :=
  C4_tier_monotone defaultSensitivity ⟨20, 0⟩ ⟨90, 0⟩ (by decide)

/-- C5 fails as stated: in the `ultra_dense` tier of the default
configurable fitter (any document with more than 80 content lines) the
header font is 10pt and the body font 6pt, a ratio of 5/3 ≈ 1.667 > 1.6. -/
theorem C5_counterexample :
    5 * (calculateConfigurableScaling defaultSensitivity ⟨90, 0⟩).header >
      8 * (calculateConfigurableScaling defaultSensitivity ⟨90, 0⟩).body ∧
    (calculateConfigurableScaling defaultSensitivity ⟨90, 0⟩).header = 10 ∧
    (calculateConfigurableScaling defaultSensitivity ⟨90, 0⟩).body = 6 := by
  refine ⟨by decide, by decide, by decide⟩

/-- C5 amended: the header/body font ratio is at most 1.6 in every tier of
`AutoFitPdfGenerator.calculate_font_scaling` and in the first four tiers of
the default configurable fitter; the default `ultra_dense` tier reaches
exactly 5/3, so the uniform bound over all emitted tiers is 5/3 rather
than 1.6. -/
theorem C5_amended (a : ContentAnalysis) :
    5 * (calculateFontScaling a).h1Size ≤ 8 * (calculateFontScaling a).bodySize ∧
    3 * (calculateConfigurableScaling defaultSensitivity a).header ≤
      5 * (calculateConfigurableScaling defaultSensitivity a).body ∧
    ((calculateConfigurableScaling defaultSensitivity a).level ≠
        ScalingLevel.ultra_dense →
      5 * (calculateConfigurableScaling defaultSensitivity a).header ≤
        8 * (calculateConfigurableScaling defaultSensitivity a).body) := by
  simp only [calculateFontScaling, calculateConfigurableScaling]
  split_ifs <;> exact ⟨by decide, by decide, by decide⟩

/-- C6: every scaling profile is bounded.  For the auto-fit PDF fitter the
spacing and margin multipliers lie in `[0.5, 1.0]` and `[0.6, 1.0]`
respectively and every font size lies between its per-role floor and its
unscaled baseline; for the default configurable fitter every emitted font
size is clamped into `[min_font_size, max_font_size] = [6, 20]`
(all values in hundredths where fractional). -/
theorem C6_bounded (a : ContentAnalysis) :
    (50 ≤ (calculateFontScaling a).spacingFactor100 ∧
      (calculateFontScaling a).spacingFactor100 ≤ 100 ∧
      60 ≤ (calculateFontScaling a).marginFactor100 ∧
      (calculateFontScaling a).marginFactor100 ≤ 100 ∧
      14 ≤ (calculateFontScaling a).h1Size ∧ (calculateFontScaling a).h1Size ≤ 16 ∧
      11 ≤ (calculateFontScaling a).h2Size ∧ (calculateFontScaling a).h2Size ≤ 12 ∧
      10 ≤ (calculateFontScaling a).h3Size ∧ (calculateFontScaling a).h3Size ≤ 11 ∧
      10 ≤ (calculateFontScaling a).bodySize ∧ (calculateFontScaling a).bodySize ≤ 12 ∧
      7 ≤ (calculateFontScaling a).smallSize ∧ (calculateFontScaling a).smallSize ≤ 9 ∧
      7 ≤ (calculateFontScaling a).contactSize ∧
      (calculateFontScaling a).contactSize ≤ 10) ∧
    (defaultSensitivity.minFontSize ≤
        (calculateConfigurableScaling defaultSensitivity a).header ∧
      (calculateConfigurableScaling defaultSensitivity a).header ≤
        defaultSensitivity.maxFontSize ∧
      defaultSensitivity.minFontSize ≤
        (calculateConfigurableScaling defaultSensitivity a).sectionFont ∧
      (calculateConfigurableScaling defaultSensitivity a).sectionFont ≤
        defaultSensitivity.maxFontSize ∧
      defaultSensitivity.minFontSize ≤
        (calculateConfigurableScaling defaultSensitivity a).body ∧
      (calculateConfigurableScaling defaultSensitivity a).body ≤
        defaultSensitivity.maxFontSize ∧
      defaultSensitivity.minFontSize ≤
        (calculateConfigurableScaling defaultSensitivity a).small ∧
      (calculateConfigurableScaling defaultSensitivity a).small ≤
        defaultSensitivity.maxFontSize) := by
  simp only [calculateFontScaling, calculateConfigurableScaling]
  split_ifs <;> exact ⟨by decide, by decide⟩

/-- C7 fails as stated: on internal error the classifier falls back to
pattern matching, which does not return `{UNCLEAR, confidence ≈ 0.2}` — for
"make it bold" it returns UI_MODIFICATION with confidence 0.7, and even
when no pattern matches it returns UNCLEAR with confidence 0.3, not 0.2
(confidences in hundredths). -/
theorem C7_counterexample :
    (classifyQuery (str "make it bold") none).queryType =
        QueryType.UI_MODIFICATION ∧
      (classifyQuery (str "make it bold") none).queryType ≠ QueryType.UNCLEAR ∧
      (classifyQuery (str "make it bold") none).confidence = 70 ∧
      (classifyQuery (str "qqq zz") none).confidence = 30 := by
  refine ⟨by decide, by decide, by decide, by decide⟩

/-- C7 amended: `classify_query` is total — every internal-error path
(semantic-classifier exception, JSON decode error, invalid enum value)
returns the pattern fallback instead of propagating; the fallback always
yields an intent from the enum with confidence in [0.3, 0.8] ⊆ [0, 1]
(hundredths); it returns UNCLEAR with confidence 0.3 (not ≈ 0.2) exactly
when no fallback pattern matches the message, and otherwise the
best-scoring pattern type with confidence `min(0.8, 0.2·score + 0.5)`. -/
theorem C7_amended (msg : List Char) :
    classifyQuery msg none = fallbackClassifyQuery msg ∧
      30 ≤ (fallbackClassifyQuery msg).confidence ∧
      (fallbackClassifyQuery msg).confidence ≤ 80 ∧
    ((bestFallback (pyStrip (pyLower msg))).2 = 0 →
      (fallbackClassifyQuery msg).queryType = QueryType.UNCLEAR ∧
      (fallbackClassifyQuery msg).confidence = 30) ∧
    ((bestFallback (pyStrip (pyLower msg))).2 ≠ 0 →
      (fallbackClassifyQuery msg).queryType =
        (bestFallback (pyStrip (pyLower msg))).1 ∧
      (fallbackClassifyQuery msg).confidence =
        min 80 ((bestFallback (pyStrip (pyLower msg))).2 * 20 + 50)) := by
  refine ⟨rfl, ?_, ?_, fun h => ⟨?_, ?_⟩, fun h => ⟨?_, ?_⟩⟩
  · by_cases h : (bestFallback (pyStrip (pyLower msg))).2 = 0 <;>
      simp [fallbackClassifyQuery, h]
  · by_cases h : (bestFallback (pyStrip (pyLower msg))).2 = 0 <;>
      simp [fallbackClassifyQuery, h]
  · simp [fallbackClassifyQuery, h]
  · simp [fallbackClassifyQuery, h]
  · simp [fallbackClassifyQuery, h]
  · simp [fallbackClassifyQuery, h]

/-- Witness for C7 amended: the patternless message "qqq zz" exercises the
no-match direction, and "make it bold" (pattern score 1) the best-scoring
direction with confidence `min(0.8, 0.7) = 0.7`. -/
theorem C7_amended_witness :
    ((classifyQuery (str "qqq zz") none).queryType = QueryType.UNCLEAR ∧
      (classifyQuery (str "qqq zz") none).confidence = 30) ∧
    ((classifyQuery (str "make it bold") none).queryType =
        (bestFallback (pyStrip (pyLower (str "make it bold")))).1 ∧
      (classifyQuery (str "make it bold") none).confidence =
        min 80 ((bestFallback (pyStrip (pyLower (str "make it bold")))).2 * 20 + 50)) := by
  have e1 := (C7_amended (str "qqq zz")).1
  have h1 := (C7_amended (str "qqq zz")).2.2.2.1 (by decide)
  have e2 := (C7_amended (str "make it bold")).1
  have h2 := (C7_amended (str "make it bold")).2.2.2.2 (by decide)
  exact ⟨⟨by rw [e1]; exact h1.1, by rw [e1]; exact h1.2⟩,
    ⟨by rw [e2]; exact h2.1, by rw [e2]; exact h2.2⟩⟩

/-- C8: escalated generation is atomic for the session document.  The
session's markdown is replaced only when content generation, the PDF
render and the DOCX render all succeed (with a non-empty PDF); if the
generation call or a render fails, the previously committed document is
returned unchanged, and the `except`-branch fallback attempt never writes
the session regardless of its outcome. -/
theorem C8_generation_atomic (sessionMd : List Char)
    (gen pdf docx fb : Except Unit (List Char)) :
    ((gen = .error () ∨ pdf = .error () ∨ pdf = .ok [] ∨ docx = .error ()) →
      (generateAndNotifyResume sessionMd gen pdf docx fb).1 = sessionMd) ∧
    ((generateAndNotifyResume sessionMd gen pdf docx fb).1 = sessionMd ∨
      ∃ md, gen = .ok md ∧
        (generateAndNotifyResume sessionMd gen pdf docx fb).1 = md) ∧
    (generateAndNotifyResume sessionMd gen pdf docx fb).1 =
      (generateAndNotifyResume sessionMd gen pdf docx (.error ())).1 := by
  rcases gen with e | md
  · simp [generateAndNotifyResume]
  · rcases pdf with e | p
    · simp [generateAndNotifyResume]
    · rcases docx with e | dx
      · by_cases hp : p = [] <;> simp [generateAndNotifyResume, hp]
      · by_cases hp : p = [] <;> simp [generateAndNotifyResume, hp]

/-- Witness for C8: a failed generation call leaves the prior session
document in place. -/
theorem C8_generation_atomic_witness :
    (generateAndNotifyResume (str "prior document") (.error ())
        (.ok (str "pdfbytes")) (.ok (str "docxbytes")) (.ok (str "fallback"))).1 =
      str "prior document" :=
  (C8_generation_atomic (str "prior document") (.error ()) (.ok (str "pdfbytes"))
    (.ok (str "docxbytes")) (.ok (str "fallback"))).1 (Or.inl rfl)

/-- C9: for the message "make the name bold" on any document whose first
line is `# Jane Doe`, the result is exactly that document with the first
line replaced by `# **Jane Doe**` (one bold wrap) and every later line
unchanged. -/
theorem C9_bold_name_frame (d : List Char) (rest : List (List Char))
    (h : splitNl d = str "# Jane Doe" :: rest) :
    applyModification (str "make the name bold") d =
      joinNl (str "# **Jane Doe**" :: rest) := by
  have e : applyModification (str "make the name bold") d =
      joinNl (fontLines (pyLower (str "make the name bold")) (splitNl d)) := rfl
  rw [e, h]
  rfl

/-- Witness for C9 on a three-line document. -/
theorem C9_bold_name_frame_witness :
    applyModification (str "make the name bold")
        (str "# Jane Doe\nExperience: things\n- bullet") =
      joinNl [str "# **Jane Doe**", str "Experience: things", str "- bullet"] :=
  C9_bold_name_frame (str "# Jane Doe\nExperience: things\n- bullet")
    [str "Experience: things", str "- bullet"] (by decide)

/-- C10: `apply_modification` applies at most one category's transform per
message — exactly the first category, in the fixed order font/bold, color,
spacing/compact/tighter, layout, size, style, format, whose keyword occurs
in the lowered message — and returns the document unchanged when no
category keyword occurs. -/
theorem C10_single_dispatch (q d : List Char) :
    applyModification q d = firstMatchingModification q d ∧
    ((modificationDispatchOrder.all fun c => !(c.cond (pyLower q))) = true →
      applyModification q d = d) := by
  have key : applyModification q d = firstMatchingModification q d := by
    cases hfont : pyIn (str "font") (pyLower q) <;>
      cases hbold : pyIn (str "bold") (pyLower q) <;>
      cases hcolor : pyIn (str "color") (pyLower q) <;>
      cases hcompact : pyIn (str "compact") (pyLower q) <;>
      cases hspacing : pyIn (str "spacing") (pyLower q) <;>
      cases htighter : pyIn (str "tighter") (pyLower q) <;>
      cases hlayout : pyIn (str "layout") (pyLower q) <;>
      cases hsize : pyIn (str "size") (pyLower q) <;>
      cases hstyle : pyIn (str "style") (pyLower q) <;>
      cases hformat : pyIn (str "format") (pyLower q) <;>
      simp [applyModification, firstMatchingModification, modificationDispatchOrder,
        List.find?, hfont, hbold, hcolor, hcompact, hspacing, htighter, hlayout,
        hsize, hstyle, hformat]
  refine ⟨key, fun hall => ?_⟩
  rw [key]
  simp only [modificationDispatchOrder, List.all_cons, List.all_nil,
    Bool.and_eq_true, Bool.not_eq_true', Bool.and_true] at hall
  simp only [firstMatchingModification, modificationDispatchOrder, List.find?,
    hall.1, hall.2.1, hall.2.2.1, hall.2.2.2.1, hall.2.2.2.2.1,
    hall.2.2.2.2.2.1, hall.2.2.2.2.2.2]

/-- Witness for C10 at a message containing no modification keyword. -/
theorem C10_single_dispatch_witness :
    applyModification (str "do nothing") (str "# Jane Doe") = str "# Jane Doe" :=
  (C10_single_dispatch (str "do nothing") (str "# Jane Doe")).2 (by decide)

end ResumeLM
